import Mathlib

/-!
Shallow embedding of the `sfo` Go package (PS3 PARAM.SFO parser/writer).

A file or stream is modelled as a `List Nat` of byte values; machine
integers are modelled as `Int` (for Go `int16`/`int32`, with explicit
wrap-around via `toInt16`/`toInt32`) or `Nat` (for Go `byte` and lengths).
Fallible Go paths are modelled with `Option`/explicit result inductives;
a Go runtime panic is a distinguished `crash` outcome, separate from a
returned `error` value.
-/

namespace SFO

/-- Go `int16(x)` conversion: wrap to the signed 16-bit range. -/
def toInt16 (x : Int) : Int :=
  let m := x % 65536
  if m < 32768 then m else m - 65536

/-- Go `int32(x)` conversion: wrap to the signed 32-bit range. -/
def toInt32 (x : Int) : Int :=
  let m := x % 4294967296
  if m < 2147483648 then m else m - 4294967296

/-- Little-endian 2-byte encoding of a Go `int16` value. -/
def le16 (v : Int) : List Nat :=
  let m := (v % 65536).toNat
  [m % 256, m / 256 % 256]

/-- Little-endian 4-byte encoding of a Go `int32` value. -/
def le32 (v : Int) : List Nat :=
  let m := (v % 4294967296).toNat
  [m % 256, m / 256 % 256, m / 65536 % 256, m / 16777216 % 256]

/-- Read a little-endian `int16` from two bytes of the stream. -/
def int16At (data : List Nat) (pos : Nat) : Int :=
  toInt16 ((data.getD pos 0 + 256 * data.getD (pos + 1) 0 : Nat) : Int)

/-- Read a little-endian `int32` from four bytes of the stream. -/
def int32At (data : List Nat) (pos : Nat) : Int :=
  toInt32 ((data.getD pos 0 + 256 * data.getD (pos + 1) 0 +
            65536 * data.getD (pos + 2) 0 +
            16777216 * data.getD (pos + 3) 0 : Nat) : Int)

/-- Go `alignment(num, align)`: `tmp := num % align; if tmp != 0 { return
num + 4 - tmp }; return num`.  Go's `%` on `int` truncates toward zero,
which is `Int.tmod`; the `4` is hard-coded in the source. -/
def alignment (num align : Int) : Int :=
  let tmp := Int.tmod num align
  if tmp ≠ 0 then num + 4 - tmp else num

/-- Overwrite (and extend, zero-filling any seek gap, as a POSIX file
write does) `old` at byte offset `off` with the bytes `bs`. -/
def writeAt (old : List Nat) (off : Nat) (bs : List Nat) : List Nat :=
  (old.take off ++ List.replicate (off - old.length) 0) ++ bs ++ old.drop (off + bs.length)

/-- Fuel-indexed core of `readByteString`: read single bytes from
position `pos` until a zero byte, returning the bytes before the zero and
the position just past it; `none` when the reader hits end-of-stream
first (the Go code gets a read error and propagates it). -/
def readByteStringFuel : Nat → List Nat → Nat → Option (List Nat × Nat)
  | 0, _, _ => none
  | fuel + 1, data, pos =>
    match data.get? pos with
    | none => none
    | some 0 => some ([], pos + 1)
    | some b =>
      match readByteStringFuel fuel data (pos + 1) with
      | none => none
      | some (l, p) => some (b :: l, p)

/-- Go `readByteString(r)` applied to a stream positioned at `pos`:
`data.length + 1` fuel always suffices because each step advances `pos`
and stops at end-of-stream. -/
def readByteString (data : List Nat) (pos : Nat) : Option (List Nat × Nat) :=
  readByteStringFuel (data.length + 1) data pos

/-- `fmt.Sscanf(s, "%d", ...)` scan model: skip leading ASCII blanks,
accept an optional sign, then one or more decimal digits (trailing
unscanned input is not an error for `Sscanf`); `none` when no integer can
be scanned. -/
def goScanInt (s : List Nat) : Option Int :=
  let s1 := s.dropWhile (fun b => b = 32 ∨ b = 9 ∨ b = 10 ∨ b = 13)
  let signAndRest : Int × List Nat :=
    match s1 with
    | 43 :: rest => (1, rest)
    | 45 :: rest => (-1, rest)
    | _ => (1, s1)
  let digits := signAndRest.2.takeWhile (fun b => 48 ≤ b ∧ b ≤ 57)
  if digits = [] then none
  else some (signAndRest.1 * (digits.foldl (fun acc b => acc * 10 + (b - 48)) 0 : Nat))

/-- Go `PsfHdr` (20 bytes on the wire): magic, a preserved unused field,
then three little-endian `int32` fields. -/
structure PsfHdr where
  psf : List Nat
  unknown : List Nat
  labelPtr : Int
  dataPtr : Int
  nSects : Int
  deriving DecidableEq, Repr

/-- Go `PsfSec` (16 bytes on the wire). -/
structure PsfSec where
  labelOff : Int
  unknown : Nat
  dataType : Nat
  datafieldUsed : Int
  datafieldSize : Int
  dataOff : Int
  deriving DecidableEq, Repr

/-- The Go code stores section values in an `interface{}`: `[]byte` for
type 0, `string` for type 2, `int32` for type 4, and the zero value `nil`
when the type switch in the decoder matches no case. -/
inductive SFOValue where
  | raw : List Nat → SFOValue
  | str : List Nat → SFOValue
  | int : Int → SFOValue
  | nilv : SFOValue
  deriving DecidableEq, Repr

/-- Go `SFOPair`. -/
structure SFOPair where
  label : List Nat
  type : Nat
  value : SFOValue
  psfSec : PsfSec
  deriving DecidableEq, Repr

/-- Go `SFOParser` (the `FilePath` field is filesystem bookkeeping and is
not part of the byte-stream model). -/
structure SFOParser where
  psfHdr : PsfHdr
  psfSec : List PsfSec
  pairs : List SFOPair
  deriving DecidableEq, Repr

/-- The SFO magic bytes `0x00 'P' 'S' 'F'`. -/
def sfoMagic : List Nat := [0, 80, 83, 70]

/-- Decode the 20-byte header (`binary.Read` of `PsfHdr`, little-endian). -/
def parseHdr (data : List Nat) : PsfHdr :=
  { psf := data.take 4
    unknown := (data.drop 4).take 4
    labelPtr := int32At data 8
    dataPtr := int32At data 12
    nSects := int32At data 16 }

/-- Decode one 16-byte section descriptor starting at `pos`. -/
def parseSec (data : List Nat) (pos : Nat) : PsfSec :=
  { labelOff := int16At data pos
    unknown := data.getD (pos + 2) 0
    dataType := data.getD (pos + 3) 0
    datafieldUsed := int32At data (pos + 4)
    datafieldSize := int32At data (pos + 8)
    dataOff := int32At data (pos + 12) }

/-- Read `n` section descriptors sequentially from `pos`; a short read on
any of them makes the Go `binary.Read` fail and the decoder return that
error. -/
def parseSecs (data : List Nat) (pos : Nat) : Nat → Option (List PsfSec)
  | 0 => some []
  | n + 1 =>
    if data.length < pos + 16 then none
    else
      match parseSecs data (pos + 16) (n + 1 - 1) with
      | none => none
      | some r => some (parseSec data pos :: r)

/-- Failure modes of the per-section decode loop: a propagated read
error, or a Go runtime panic. -/
inductive PErr where
  | ioE : PErr
  | crashE : PErr
  deriving DecidableEq, Repr

/-- Result of the per-section decode loop. -/
inductive PRes (α : Type) where
  | ok : α → PRes α
  | ioE : PRes α
  | crashE : PRes α
  deriving DecidableEq, Repr

/-- Interpret the value buffer per the section's `DataType`, exactly as
the decoder's type switch does: 0 keeps raw bytes, 2 the bytes as a
string, 4 calls `binary.LittleEndian.Uint32` (a runtime panic when the
buffer is shorter than 4 bytes) and converts to `int32`; any other tag
matches no case and leaves the `interface{}` value `nil`. -/
def mkPair (sec : PsfSec) (lab buffer : List Nat) (pos : Nat) : PRes (SFOPair × Nat) :=
  if sec.dataType = 0 then
    .ok ({ label := lab, type := sec.dataType, value := .raw buffer, psfSec := sec }, pos)
  else if sec.dataType = 2 then
    .ok ({ label := lab, type := sec.dataType, value := .str buffer, psfSec := sec }, pos)
  else if sec.dataType = 4 then
    if buffer.length < 4 then .crashE
    else
      .ok ({ label := lab, type := sec.dataType,
             value := .int (int32At buffer 0), psfSec := sec }, pos)
  else
    .ok ({ label := lab, type := sec.dataType, value := .nilv, psfSec := sec }, pos)

/-- One iteration of the decoder's pair loop, starting from reader
position `pos`:
seek to `int64(LabelOff + int16(LabelPtr))` — a 16-bit signed sum; the
seek's error on a negative target is ignored by the Go code, leaving the
position unchanged — read the null-terminated label, seek to
`int64(DataOff + DataPtr)` (32-bit signed sum, error again ignored),
`make([]byte, DatafieldUsed)` (a runtime panic when negative), then a
single `file.Read` into that buffer: at end-of-stream with a non-empty
buffer it reports `io.EOF`; otherwise it fills what is available and
leaves the rest of the buffer zero, returning no error. -/
def parseOnePairData (data : List Nat) (dp : Int) (sec : PsfSec) (lab : List Nat)
    (pos2 : Nat) : PRes (SFOPair × Nat) :=
  let dt := toInt32 (sec.dataOff + dp)
  let pos3 := if dt < 0 then pos2 else dt.toNat
  if sec.datafieldUsed < 0 then .crashE
  else
    let used := sec.datafieldUsed.toNat
    if used = 0 then mkPair sec lab [] pos3
    else if data.length ≤ pos3 then .ioE
    else
      let k := min used (data.length - pos3)
      let buffer := (data.drop pos3).take k ++ List.replicate (used - k) 0
      mkPair sec lab buffer (pos3 + k)

def parseOnePair (data : List Nat) (lp dp : Int) (sec : PsfSec) (pos : Nat) :
    PRes (SFOPair × Nat) :=
  let lt := toInt16 (sec.labelOff + toInt16 lp)
  let pos1 := if lt < 0 then pos else lt.toNat
  match readByteString data pos1 with
  | none => .ioE
  | some (lab, pos2) => parseOnePairData data dp sec lab pos2

/-- The decoder's pair loop over the section descriptors. -/
def parsePairs (data : List Nat) (lp dp : Int) : List PsfSec → Nat → PRes (List SFOPair)
  | [], _ => .ok []
  | sec :: rest, pos =>
    match parseOnePair data lp dp sec pos with
    | .ioE => .ioE
    | .crashE => .crashE
    | .ok (pr, pos') =>
      match parsePairs data lp dp rest pos' with
      | .ioE => .ioE
      | .crashE => .crashE
      | .ok prs => .ok (pr :: prs)

/-- Outcome of `NewSFOParser` on a byte stream: success, a propagated
read error, the `"not a valid SFO file"` error from the magic check, or a
Go runtime panic.  (The `os.Stat`/`IsDir` checks concern the filesystem
path, not the stream, and are outside this model.) -/
inductive NewSFOResult where
  | ok : SFOParser → NewSFOResult
  | ioErr : NewSFOResult
  | fmtErr : NewSFOResult
  | crash : NewSFOResult
  deriving DecidableEq, Repr

/-- Go `NewSFOParser`, as a function of the file's bytes: read the
20-byte header, check the magic, `make([]PsfSec, NSects)` (a runtime
panic when `NSects` is negative), read the descriptors, then run the pair
loop. -/
def NewSFOParser (data : List Nat) : NewSFOResult :=
  if data.length < 20 then .ioErr
  else if (parseHdr data).psf = sfoMagic then
    if (parseHdr data).nSects < 0 then .crash
    else
      match parseSecs data 20 (parseHdr data).nSects.toNat with
      | none => .ioErr
      | some secs =>
        match parsePairs data (parseHdr data).labelPtr (parseHdr data).dataPtr secs
            (20 + 16 * (parseHdr data).nSects.toNat) with
        | .ioE => .ioErr
        | .crashE => .crash
        | .ok prs => .ok { psfHdr := parseHdr data, psfSec := secs, pairs := prs }
  else .fmtErr

/-- The label-field loop of `SaveSFO`: for each `i < NSects`, set
`PsfSec[i].LabelOff = int16(buf.Len())`, then append the label and one
null byte to the buffer.  Indexing `PsfSec[i]`/`Pairs[i]` out of range is
a Go runtime panic, modelled as `none`. -/
def labelLoop (pairs : List SFOPair) : Nat → Nat → List PsfSec → List Nat →
    Option (List PsfSec × List Nat)
  | 0, _, secs, buf => some (secs, buf)
  | k + 1, i, secs, buf =>
    match secs.get? i, pairs.get? i with
    | some sec, some pr =>
      labelLoop pairs k (i + 1)
        (secs.set i { sec with labelOff := toInt16 (buf.length : Int) })
        (buf ++ pr.label ++ [0])
    | _, _ => none

/-- The value serialization switch of `SaveSFO`: switch on `Pairs[i].Type`
with cases 0, 2, 4 performing a Go type assertion on the stored value (a
runtime panic, `none`, when the dynamic type does not match); any other
tag matches no case and writes nothing. -/
def writeValue (pr : SFOPair) (buf : List Nat) : Option (List Nat) :=
  if pr.type = 0 then
    match pr.value with
    | .raw bs => some (buf ++ bs)
    | _ => none
  else if pr.type = 2 then
    match pr.value with
    | .str s => some (buf ++ s)
    | _ => none
  else if pr.type = 4 then
    match pr.value with
    | .int v => some (buf ++ le32 v)
    | _ => none
  else some buf

/-- The data-set loop of `SaveSFO`: record `DataOff`, serialize the
value, derive `DatafieldUsed`/`DatafieldSize` (all in `int32`
arithmetic), and pad the buffer with zero bytes up to
`DataOff + DatafieldSize`. -/
def dataLoop (pairs : List SFOPair) : Nat → Nat → List PsfSec → List Nat →
    Option (List PsfSec × List Nat)
  | 0, _, secs, buf => some (secs, buf)
  | k + 1, i, secs, buf =>
    match secs.get? i, pairs.get? i with
    | some sec, some pr =>
      let dOff := toInt32 (buf.length : Int)
      match writeValue pr buf with
      | none => none
      | some buf1 =>
        let used := toInt32 (toInt32 (buf1.length : Int) - dOff)
        let size := toInt32 (alignment used 4)
        let target := (toInt32 (dOff + size)).toNat
        let buf2 :=
          if buf1.length < target then buf1 ++ List.replicate (target - buf1.length) 0
          else buf1
        dataLoop pairs k (i + 1)
          (secs.set i { sec with dataOff := dOff, datafieldUsed := used,
                                 datafieldSize := size })
          buf2
    | _, _ => none

/-- Encode a section descriptor as its 16 wire bytes. -/
def encSec (s : PsfSec) : List Nat :=
  le16 s.labelOff ++ [s.unknown, s.dataType] ++
    le32 s.datafieldUsed ++ le32 s.datafieldSize ++ le32 s.dataOff

/-- Encode the header as its 20 wire bytes. -/
def encHdr (h : PsfHdr) : List Nat :=
  h.psf ++ h.unknown ++ le32 h.labelPtr ++ le32 h.dataPtr ++ le32 h.nSects

/-- Go `SaveSFO`, as a function of the parser state and the prior file
contents (the file is opened `O_WRONLY` without truncation, so bytes the
method does not write keep their prior values): recompute `LabelPtr`,
run the label loop, recompute `DataPtr` and pad the buffer, run the data
loop, then write the section descriptors at offset 20 and the header at
offset 0.  The buffer holding the label and data blocks is built but
never written to the file.  Returns the mutated parser state and the new
file bytes; `none` models a Go runtime panic inside the method. -/
def SaveSFO (p : SFOParser) (old : List Nat) : Option (SFOParser × List Nat) :=
  let lp := toInt32 (20 + 16 * (p.psfSec.length : Int))
  let n := p.psfHdr.nSects.toNat
  match labelLoop p.pairs n 0 p.psfSec [] with
  | none => none
  | some (secs1, lbuf) =>
    let dp := toInt32 (alignment (lbuf.length : Int) 4)
    let lbuf2 :=
      if lbuf.length < dp.toNat then lbuf ++ List.replicate (dp.toNat - lbuf.length) 0
      else lbuf
    match dataLoop p.pairs n 0 secs1 lbuf2 with
    | none => none
    | some (secs2, _) =>
      let hdr' := { p.psfHdr with labelPtr := lp, dataPtr := dp }
      let secBytes := (secs2.map encSec).flatten
      let fileBytes := writeAt (writeAt old 20 secBytes) 0 (encHdr hdr')
      some ({ psfHdr := hdr', psfSec := secs2, pairs := p.pairs }, fileBytes)

/-- Go `GetValue`: linear scan, first label match wins; `none` is the
`"key not found"` error. -/
def GetValue (p : SFOParser) (key : List Nat) : Option SFOValue :=
  match p.pairs.find? (fun pr => pr.label = key) with
  | some pr => some pr.value
  | none => none

/-- Go `GetLength`. -/
def GetLength (p : SFOParser) : Int :=
  p.psfHdr.nSects

/-- Fallback pair for `List.getD`: every by-index operation checks
`index < 0 || index >= len(parser.Pairs)` before indexing, so the
fallback is never produced and `getD` coincides with Go's checked
`parser.Pairs[index]`. -/
def defaultPair : SFOPair :=
  { label := [], type := 0, value := .nilv
    psfSec := { labelOff := 0, unknown := 0, dataType := 0, datafieldUsed := 0,
                datafieldSize := 0, dataOff := 0 } }

/-- Go `GetValueByIndex`; `none` is the `"index out of range"` error. -/
def GetValueByIndex (p : SFOParser) (index : Int) : Option SFOValue :=
  if index < 0 ∨ (p.pairs.length : Int) ≤ index then none
  else some (p.pairs.getD index.toNat defaultPair).value

/-- Go `GetKeyByIndex`; `none` is the `"index out of range"` error. -/
def GetKeyByIndex (p : SFOParser) (index : Int) : Option (List Nat) :=
  if index < 0 ∨ (p.pairs.length : Int) ≤ index then none
  else some (p.pairs.getD index.toNat defaultPair).label

/-- Go `GetTypeByIndex`; `none` is the `"index out of range"` error. -/
def GetTypeByIndex (p : SFOParser) (index : Int) : Option Nat :=
  if index < 0 ∨ (p.pairs.length : Int) ≤ index then none
  else some (p.pairs.getD index.toNat defaultPair).type

/-- Outcome of `SetValueByIndex`: success, one of the three returned
errors (`"index out of range"`, the `Sscanf` parse error, `"unknown
type"`), or the runtime panic from indexing an empty string. -/
inductive SetRes where
  | okR : SetRes
  | idxErr : SetRes
  | parseErr : SetRes
  | typeErr : SetRes
  | crash : SetRes
  deriving DecidableEq, Repr

/-- Go `SetValueByIndex`, returning the (possibly mutated) parser state
together with the outcome.  The method mutates the receiver only on the
success path, after all checks; `value[len(value)-1]` on an empty string
is a Go runtime panic; a scanned integer outside the `int32` range makes
`Sscanf` report a range error, returned like a parse failure. -/
def SetValueByIndex (p : SFOParser) (index : Int) (value : List Nat) :
    SFOParser × SetRes :=
  if index < 0 ∨ (p.pairs.length : Int) ≤ index then (p, .idxErr)
  else
    let pr := p.pairs.getD index.toNat defaultPair
    if pr.type = 0 then
      ({ p with pairs := p.pairs.set index.toNat { pr with value := .raw value } }, .okR)
    else if pr.type = 2 then
      if hv : value = [] then (p, .crash)
      else
        let v2 := if value.getLast hv ≠ 0 then value ++ [0] else value
        ({ p with pairs := p.pairs.set index.toNat { pr with value := .str v2 } }, .okR)
    else if pr.type = 4 then
      match goScanInt value with
      | none => (p, .parseErr)
      | some v =>
        if v < -2147483648 ∨ 2147483648 ≤ v then (p, .parseErr)
        else
          ({ p with pairs := p.pairs.set index.toNat { pr with value := .int v } }, .okR)
    else (p, .typeErr)

/-- Go `SetLabelByIndex`; `none` is the `"index out of range"` error. -/
def SetLabelByIndex (p : SFOParser) (index : Int) (value : List Nat) :
    Option SFOParser :=
  if index < 0 ∨ (p.pairs.length : Int) ≤ index then none
  else
    let pr := p.pairs.getD index.toNat defaultPair
    some { p with pairs := p.pairs.set index.toNat { pr with label := value } }

/-! ### Concrete models and streams used by the evaluation theorems -/

/-- A section descriptor whose fields are all zero (only `dataType`
matters before a save recomputes the rest). -/
def zeroSec : PsfSec :=
  { labelOff := 0, unknown := 0, dataType := 0, datafieldUsed := 0,
    datafieldSize := 0, dataOff := 0 }

/-- The spec's worked example: a text entry `TITLE = "Game\0"` and an
integer entry `VERSION = 1`. -/
def exTitle : SFOParser :=
  { psfHdr := { psf := sfoMagic, unknown := [0, 0, 0, 0], labelPtr := 0, dataPtr := 0,
                nSects := 2 }
    psfSec := [{ zeroSec with dataType := 2 }, { zeroSec with dataType := 4 }]
    pairs := [{ label := [84, 73, 84, 76, 69], type := 2, value := .str [71, 97, 109, 101, 0],
                psfSec := { zeroSec with dataType := 2 } },
              { label := [86, 69, 82, 83, 73, 79, 78], type := 4, value := .int 1,
                psfSec := { zeroSec with dataType := 4 } }] }

/-- A one-entry model with label `"ABCD"` and a one-byte raw value. -/
def exP0 : SFOParser :=
  { psfHdr := { psf := sfoMagic, unknown := [0, 0, 0, 0], labelPtr := 0, dataPtr := 0,
                nSects := 1 }
    psfSec := [zeroSec]
    pairs := [{ label := [65, 66, 67, 68], type := 0, value := .raw [9], psfSec := zeroSec }] }

/-- A stream whose single section has `data_type = 4` but
`used_size = 2`: magic header (`label_table_offset` 36,
`data_table_offset` 37, 1 section), one descriptor, an empty label at
offset 36, and two data bytes. -/
def exC3 : List Nat :=
  [0, 80, 83, 70, 0, 0, 0, 0, 36, 0, 0, 0, 37, 0, 0, 0, 1, 0, 0, 0] ++
  [0, 0, 0, 4, 2, 0, 0, 0, 4, 0, 0, 0, 0, 0, 0, 0] ++ [0] ++ [5, 6]

/-- A 41-byte stream whose header has `label_table_offset = 32768`, which
does not fit in a signed 16-bit value. -/
def cex4 : List Nat :=
  [0, 80, 83, 70, 0, 0, 0, 0, 0, 128, 0, 0, 40, 0, 0, 0, 1, 0, 0, 0] ++
  [0, 0, 0, 0, 1, 0, 0, 0, 4, 0, 0, 0, 0, 0, 0, 0] ++ [76, 0] ++ [0, 0] ++ [9]

/-- The model the decoder produces for `cex4`. -/
def cex4P : SFOParser :=
  { psfHdr := { psf := sfoMagic, unknown := [0, 0, 0, 0], labelPtr := 32768, dataPtr := 40,
                nSects := 1 }
    psfSec := [{ labelOff := 0, unknown := 0, dataType := 0, datafieldUsed := 1,
                 datafieldSize := 4, dataOff := 0 }]
    pairs := [{ label := [76], type := 0, value := .raw [9],
                psfSec := { labelOff := 0, unknown := 0, dataType := 0, datafieldUsed := 1,
                            datafieldSize := 4, dataOff := 0 } }] }

/-- A 37-byte stream whose single section carries the unsupported type
tag 3 (`used_size` 0, empty label at offset 36). -/
def exC8 : List Nat :=
  [0, 80, 83, 70, 0, 0, 0, 0, 36, 0, 0, 0, 37, 0, 0, 0, 1, 0, 0, 0] ++
  [0, 0, 0, 3, 0, 0, 0, 0, 0, 0, 0, 0, 0, 0, 0, 0] ++ [0]

/-- The model the decoder produces for `exC8`. -/
def exC8P : SFOParser :=
  { psfHdr := { psf := sfoMagic, unknown := [0, 0, 0, 0], labelPtr := 36, dataPtr := 37,
                nSects := 1 }
    psfSec := [{ zeroSec with dataType := 3 }]
    pairs := [{ label := [], type := 3, value := .nilv,
                psfSec := { zeroSec with dataType := 3 } }] }

/-- A well-formed 37-byte one-section stream (empty label at offset 36,
`used_size` 0) used to instantiate the label-position theorem. -/
def wstream4 : List Nat :=
  [0, 80, 83, 70, 0, 0, 0, 0, 36, 0, 0, 0, 36, 0, 0, 0, 1, 0, 0, 0] ++
  [0, 0, 0, 0, 0, 0, 0, 0, 0, 0, 0, 0, 0, 0, 0, 0] ++ [0]

/-- The model the decoder produces for `wstream4`. -/
def wP : SFOParser :=
  { psfHdr := { psf := sfoMagic, unknown := [0, 0, 0, 0], labelPtr := 36, dataPtr := 36,
                nSects := 1 }
    psfSec := [zeroSec]
    pairs := [{ label := [], type := 0, value := .raw [], psfSec := zeroSec }] }

/-- A three-entry in-memory model with a text, an integer and an
unsupported-type entry, for exercising the mutation paths. -/
def exSet : SFOParser :=
  { psfHdr := { psf := sfoMagic, unknown := [0, 0, 0, 0], labelPtr := 0, dataPtr := 0,
                nSects := 3 }
    psfSec := [{ zeroSec with dataType := 2 }, { zeroSec with dataType := 4 },
               { zeroSec with dataType := 9 }]
    pairs := [{ label := [65], type := 2, value := .str [66, 0],
                psfSec := { zeroSec with dataType := 2 } },
              { label := [67], type := 4, value := .int 5,
                psfSec := { zeroSec with dataType := 4 } },
              { label := [68], type := 9, value := .nilv,
                psfSec := { zeroSec with dataType := 9 } }] }

/-! ### Theorems -/

/-- C1.  The claim says `SaveSFO` writes, in file order, the header, all
section descriptors, then the label block and the data block.  On the
two-entry example model over an 80-byte zero file, the output's first 52
bytes are the freshly computed header and descriptors, but everything
from byte 52 on — where the claim's label block (`"TITLE\x00VERSION\x00"`
padded to 16 bytes) and data block would start — is still the prior
file's zero bytes: the method builds the label and data blocks in a
buffer it never writes. -/
theorem save_omits_label_and_data_blocks :
    (SaveSFO exTitle (List.replicate 80 0)).map (fun r => (r.2.take 52, r.2.drop 52)) =
      some ([0, 80, 83, 70, 0, 0, 0, 0, 52, 0, 0, 0, 16, 0, 0, 0, 2, 0, 0, 0,
             0, 0, 0, 2, 5, 0, 0, 0, 8, 0, 0, 0, 16, 0, 0, 0,
             6, 0, 0, 4, 4, 0, 0, 0, 4, 0, 0, 0, 24, 0, 0, 0],
            List.replicate 28 0) := by
  decide

/-- C2.  A previously-encoded stream on which decode-then-re-encode is
not byte-identical: encoding the one-entry model `exP0` over a 64-byte
zero file yields a valid stream `F`; decoding `F` succeeds, but
re-encoding the decoded model without mutation produces different bytes
(the decoded label comes from `F`'s untouched zero label region, so the
recomputed `data_table_offset` drops from 8 to 4). -/
theorem decode_encode_roundtrip_fails :
    ((SaveSFO exP0 (List.replicate 64 0)).bind (fun r =>
      match NewSFOParser r.2 with
      | .ok p1 => (SaveSFO p1 r.2).map (fun r2 => decide (r2.2 = r.2))
      | _ => none)) = some false := by
  decide

/-- C3.  On a stream whose single section has `data_type = 4` and
`used_size = 2`, the decoder's `binary.LittleEndian.Uint32` indexes past
the 2-byte buffer: a Go runtime panic, not a returned `FormatError`. -/
theorem decode_short_int_payload_crashes :
    NewSFOParser exC3 = .crash := by
  decide

/-- C4 counterexample.  On a decodable stream whose header has
`label_table_offset = 32768`, the decoder succeeds and reads the label
`"L"` — but not from absolute position
`label_table_offset + label_offset = 32768`: that position is past
end-of-stream (a null-terminated read there yields nothing), because the
seek target is computed in wrapping 16-bit signed arithmetic, comes out
negative, and the failed seek leaves the read position where it was. -/
theorem decode_label_position_wraps_int16 :
    NewSFOParser cex4 = .ok cex4P ∧
    cex4P.psfHdr.labelPtr = 32768 ∧
    cex4P.psfSec.map PsfSec.labelOff = [0] ∧
    cex4P.pairs.map SFOPair.label = [[76]] ∧
    readByteString cex4 32768 = none := by
  decide

/-- C7 counterexample.  A 4-byte stream with a wrong magic does not fail
with the magic check's `FormatError`: the 20-byte header read fails first
with an `IOError`. -/
theorem decode_bad_magic_short_stream_ioerr :
    [1, 2, 3, 4].take 4 ≠ sfoMagic ∧ NewSFOParser [1, 2, 3, 4] = .ioErr := by
  decide

/-- C8 counterexample.  A stream whose single section carries the type
tag 3 (outside {0, 2, 4}) decodes successfully — the decoder's type
switch has no default case and leaves the value `nil` — and re-encoding
the decoded model also succeeds without any `UnsupportedType` error. -/
theorem decode_accepts_unknown_type_tag :
    NewSFOParser exC8 = .ok exC8P ∧
    exC8P.pairs.map SFOPair.type = [3] ∧
    (SaveSFO exC8P exC8).isSome = true := by
  decide

/-- Go's truncated `%` agrees with the Euclidean one on a nonnegative
dividend and the divisor 4. -/
theorem tmod_four_eq_emod (a : Int) (h : 0 ≤ a) : Int.tmod a 4 = a % 4 := by
  match a, h with
  | Int.ofNat k, _ => rfl

/-- An already 4-aligned nonnegative value is left unchanged. -/
theorem alignment_fixed (a : Int) (ha : 0 ≤ a) (hmod : a % 4 = 0) :
    alignment a 4 = a := by
  simp only [alignment, tmod_four_eq_emod a ha]
  simp [hmod]

/-- C5.  For nonnegative `n`, `alignment n 4` matches the spec's formula
(`n` when `n` is a multiple of 4, else `n + (4 - n mod 4)`), is
idempotent, and overshoots `n` by at most 3. -/
theorem alignment_spec (n : Int) (h : 0 ≤ n) :
    alignment n 4 = (if n % 4 = 0 then n else n + (4 - n % 4)) ∧
    alignment (alignment n 4) 4 = alignment n 4 ∧
    (alignment n 4 - n = 0 ∨ alignment n 4 - n = 1 ∨
     alignment n 4 - n = 2 ∨ alignment n 4 - n = 3) := by
  have h1 : alignment n 4 = if n % 4 = 0 then n else n + (4 - n % 4) := by
    simp only [alignment, tmod_four_eq_emod n h]
    split_ifs <;> omega
  have ha : 0 ≤ alignment n 4 := by rw [h1]; split_ifs <;> omega
  have hm : alignment n 4 % 4 = 0 := by rw [h1]; split_ifs <;> omega
  exact ⟨h1, alignment_fixed _ ha hm, by rw [h1]; split_ifs <;> omega⟩

/-- Witness for C5 at `n = 6`. -/
theorem alignment_spec_witness :
    (0 : Int) ≤ 6 ∧
    (alignment 6 4 = (if (6 : Int) % 4 = 0 then 6 else 6 + (4 - (6 : Int) % 4)) ∧
     alignment (alignment 6 4) 4 = alignment 6 4 ∧
     (alignment 6 4 - 6 = 0 ∨ alignment 6 4 - 6 = 1 ∨
      alignment 6 4 - 6 = 2 ∨ alignment 6 4 - 6 = 3)) :=
  ⟨by decide, alignment_spec 6 (by decide)⟩

/-- C6.  On an in-bounds integer-typed entry, setting the value from a
string the `%d` scan rejects returns the parse error and leaves the
parser — in particular the entry's prior value — unchanged. -/
theorem set_int_value_nonnumeric_fails (p : SFOParser) (i : Int) (pr : SFOPair)
    (s : List Nat) (h0 : 0 ≤ i) (hpr : p.pairs[i.toNat]? = some pr)
    (ht : pr.type = 4) (hs : goScanInt s = none) :
    SetValueByIndex p i s = (p, .parseErr) := by
  obtain ⟨hlt, -⟩ := List.getElem?_eq_some.mp hpr
  have hcond : ¬(i < 0 ∨ (p.pairs.length : Int) ≤ i) := by omega
  have hg : p.pairs.getD i.toNat defaultPair = pr := by
    rw [List.getD_eq_getElem?_getD, hpr]; rfl
  simp only [SetValueByIndex, if_neg hcond, hg, ht, hs]
  rfl

/-- Witness for C6: entry 1 of `exSet` is integer-typed and `"abc"` does
not scan. -/
theorem set_int_value_nonnumeric_fails_witness :
    (0 : Int) ≤ 1 ∧
    exSet.pairs.get? (1 : Int).toNat =
      some { label := [67], type := 4, value := .int 5,
             psfSec := { zeroSec with dataType := 4 } } ∧
    goScanInt [97, 98, 99] = none ∧
    SetValueByIndex exSet 1 [97, 98, 99] = (exSet, .parseErr) :=
  ⟨by decide, by decide, by decide,
   set_int_value_nonnumeric_fails exSet 1
     { label := [67], type := 4, value := .int 5, psfSec := { zeroSec with dataType := 4 } }
     [97, 98, 99] (by decide) (by decide) (by decide) (by decide)⟩

/-- C7 (amended).  A bad magic does fail with the `FormatError` whenever
the stream holds at least the 20-byte header; shorter streams fail in
the header read first. -/
theorem decode_bad_magic_formaterror (data : List Nat)
    (hlen : 20 ≤ data.length) (hmag : data.take 4 ≠ sfoMagic) :
    NewSFOParser data = .fmtErr := by
  have hpsf : ¬((parseHdr data).psf = sfoMagic) := by simpa [parseHdr] using hmag
  unfold NewSFOParser
  rw [if_neg (show ¬data.length < 20 by omega)]
  rw [if_neg hpsf]

/-- Witness for C7's amended statement: a 20-byte stream whose first
byte breaks the magic. -/
theorem decode_bad_magic_formaterror_witness :
    20 ≤ ([9] ++ List.replicate 19 0 : List Nat).length ∧
    ([9] ++ List.replicate 19 0 : List Nat).take 4 ≠ sfoMagic ∧
    NewSFOParser ([9] ++ List.replicate 19 0) = .fmtErr :=
  ⟨by decide, by decide, decode_bad_magic_formaterror _ (by decide) (by decide)⟩

/-- C8 (amended).  Only the set-value mutation path rejects a type tag
outside {0, 2, 4}: on an in-bounds entry with such a tag it returns the
`"unknown type"` error (and leaves the parser unchanged). -/
theorem set_value_rejects_unknown_type (p : SFOParser) (i : Int) (pr : SFOPair)
    (s : List Nat) (h0 : 0 ≤ i) (hpr : p.pairs[i.toNat]? = some pr)
    (h1 : pr.type ≠ 0) (h2 : pr.type ≠ 2) (h3 : pr.type ≠ 4) :
    SetValueByIndex p i s = (p, .typeErr) := by
  obtain ⟨hlt, -⟩ := List.getElem?_eq_some.mp hpr
  have hcond : ¬(i < 0 ∨ (p.pairs.length : Int) ≤ i) := by omega
  have hg : p.pairs.getD i.toNat defaultPair = pr := by
    rw [List.getD_eq_getElem?_getD, hpr]; rfl
  simp only [SetValueByIndex, if_neg hcond, hg, if_neg h1, if_neg h2, if_neg h3]

/-- Witness for C8's amended statement: entry 2 of `exSet` has tag 9. -/
theorem set_value_rejects_unknown_type_witness :
    (0 : Int) ≤ 2 ∧
    exSet.pairs.get? (2 : Int).toNat =
      some { label := [68], type := 9, value := .nilv,
             psfSec := { zeroSec with dataType := 9 } } ∧
    SetValueByIndex exSet 2 [65] = (exSet, .typeErr) :=
  ⟨by decide, by decide,
   set_value_rejects_unknown_type exSet 2
     { label := [68], type := 9, value := .nilv, psfSec := { zeroSec with dataType := 9 } }
     [65] (by decide) (by decide) (by decide) (by decide) (by decide)⟩

/-- C9.  Each position-based accessor and mutator fails with the
`"index out of range"` error exactly when `i < 0` or `i ≥ len(Pairs)`,
and an in-bounds index never produces that error. -/
theorem index_bounds_iff (p : SFOParser) (i : Int) (s v : List Nat) :
    (GetValueByIndex p i = none ↔ (i < 0 ∨ (p.pairs.length : Int) ≤ i)) ∧
    (GetKeyByIndex p i = none ↔ (i < 0 ∨ (p.pairs.length : Int) ≤ i)) ∧
    (GetTypeByIndex p i = none ↔ (i < 0 ∨ (p.pairs.length : Int) ≤ i)) ∧
    ((SetValueByIndex p i s).2 = .idxErr ↔ (i < 0 ∨ (p.pairs.length : Int) ≤ i)) ∧
    (SetLabelByIndex p i v = none ↔ (i < 0 ∨ (p.pairs.length : Int) ≤ i)) := by
  refine ⟨?_, ?_, ?_, ?_, ?_⟩
  · simp only [GetValueByIndex]; split_ifs with h <;> simp [h]
  · simp only [GetKeyByIndex]; split_ifs with h <;> simp [h]
  · simp only [GetTypeByIndex]; split_ifs with h <;> simp [h]
  · by_cases h : i < 0 ∨ (p.pairs.length : Int) ≤ i
    · simp [SetValueByIndex, h]
    · simp only [SetValueByIndex, if_neg h]
      constructor
      · intro heq
        exfalso
        revert heq
        split_ifs <;> (try split) <;> (try split_ifs) <;> simp
      · intro hc
        exact absurd hc h
  · simp only [SetLabelByIndex]; split_ifs with h <;> simp [h]

/-- C10.  On an in-bounds text-typed entry, setting the value crashes
(with Go's out-of-range indexing panic on `value[len(value)-1]`, not a
returned error) exactly when the supplied string is empty. -/
theorem set_string_value_empty_crashes (p : SFOParser) (i : Int) (pr : SFOPair)
    (s : List Nat) (h0 : 0 ≤ i) (hpr : p.pairs[i.toNat]? = some pr)
    (ht : pr.type = 2) :
    ((SetValueByIndex p i s).2 = .crash ↔ s = []) := by
  obtain ⟨hlt, -⟩ := List.getElem?_eq_some.mp hpr
  have hcond : ¬(i < 0 ∨ (p.pairs.length : Int) ≤ i) := by omega
  have hg : p.pairs.getD i.toNat defaultPair = pr := by
    rw [List.getD_eq_getElem?_getD, hpr]; rfl
  simp only [SetValueByIndex, if_neg hcond, hg, ht]
  norm_num
  split_ifs with hv <;> simp [hv]

/-- Every successful outcome of the decoder's type switch carries the
label it was given. -/
theorem mkPair_label (sec : PsfSec) (lab buffer : List Nat) (pos : Nat)
    (pr : SFOPair) (pos' : Nat) (h : mkPair sec lab buffer pos = .ok (pr, pos')) :
    pr.label = lab := by
  simp only [mkPair] at h
  split_ifs at h <;> cases h <;> rfl

/-- The data-reading half of one pair-loop iteration never changes the
label. -/
theorem parseOnePairData_label (data : List Nat) (dp : Int) (sec : PsfSec)
    (lab : List Nat) (pos2 : Nat) (pr : SFOPair) (pos' : Nat)
    (h : parseOnePairData data dp sec lab pos2 = .ok (pr, pos')) :
    pr.label = lab := by
  simp only [parseOnePairData] at h
  split_ifs at h <;> first | cases h | exact mkPair_label _ _ _ _ _ _ h

/-- `toInt16` is the identity on `[0, 32768)`. -/
theorem toInt16_eq_self (x : Int) (h0 : 0 ≤ x) (h1 : x < 32768) : toInt16 x = x := by
  simp only [toInt16]
  rw [Int.emod_eq_of_lt h0 (by omega)]
  exact if_pos (by omega)

/-- When the header's label-table offset and the section's label offset
are nonnegative with sum below 2^15, a successful pair-loop iteration
reads its label exactly at absolute position `labelPtr + labelOff`,
whatever the reader position was before the seek. -/
theorem parseOnePair_label (data : List Nat) (lp dp : Int) (sec : PsfSec) (pos : Nat)
    (pr : SFOPair) (pos' : Nat)
    (h : parseOnePair data lp dp sec pos = .ok (pr, pos'))
    (hlp : 0 ≤ lp) (hoff : 0 ≤ sec.labelOff) (hsum : lp + sec.labelOff < 32768) :
    (readByteString data (lp + sec.labelOff).toNat).map Prod.fst = some pr.label := by
  have e1 : toInt16 (sec.labelOff + toInt16 lp) = lp + sec.labelOff := by
    rw [toInt16_eq_self lp hlp (by omega), toInt16_eq_self _ (by omega) (by omega)]
    omega
  simp only [parseOnePair, e1] at h
  rw [if_neg (show ¬(lp + sec.labelOff < 0) by omega)] at h
  cases hr : readByteString data (lp + sec.labelOff).toNat with
  | none => rw [hr] at h; cases h
  | some a =>
    obtain ⟨lab, pos2⟩ := a
    rw [hr] at h
    dsimp only at h
    have hl := parseOnePairData_label data dp sec lab pos2 pr pos' h
    simp [hr, hl]

/-- Labels collected by a successful run of the decoder's pair loop,
read at `labelPtr + labelOff` for every section whose offsets satisfy
the no-wrap-around bounds. -/
theorem parsePairs_label (data : List Nat) (lp dp : Int) (hlp : 0 ≤ lp) :
    ∀ (secs : List PsfSec) (pos : Nat) (prs : List SFOPair),
      parsePairs data lp dp secs pos = .ok prs →
      ∀ (i : Nat) (sec : PsfSec), secs[i]? = some sec →
        0 ≤ sec.labelOff → lp + sec.labelOff < 32768 →
        ∃ pr, prs[i]? = some pr ∧
          (readByteString data (lp + sec.labelOff).toNat).map Prod.fst = some pr.label := by
  intro secs
  induction secs with
  | nil => intro pos prs h i sec hsec _ _; simp at hsec
  | cons s0 rest ih =>
    intro pos prs h i sec hsec hoff hsum
    rw [parsePairs] at h
    cases hp : parseOnePair data lp dp s0 pos with
    | ioE => rw [hp] at h; cases h
    | crashE => rw [hp] at h; cases h
    | ok a =>
      obtain ⟨pr0, pos0⟩ := a
      rw [hp] at h
      dsimp only at h
      cases hr : parsePairs data lp dp rest pos0 with
      | ioE => rw [hr] at h; cases h
      | crashE => rw [hr] at h; cases h
      | ok prs' =>
        rw [hr] at h
        dsimp only at h
        cases h
        cases i with
        | zero =>
          simp only [List.getElem?_cons_zero] at hsec
          cases hsec
          exact ⟨pr0, by simp,
                 parseOnePair_label data lp dp s0 pos pr0 pos0 hp hlp hoff hsum⟩
        | succ j =>
          simp only [List.getElem?_cons_succ] at hsec ⊢
          exact ih pos0 prs' hr j sec hsec hoff hsum

/-- C4 (amended).  For every decodable stream and every section whose
`label_table_offset` and `label_offset` are nonnegative and sum below
2^15 — so that the 16-bit signed seek arithmetic cannot wrap — the
decoded label is exactly the null-terminated byte run starting at
absolute position `label_table_offset + label_offset[i]`. -/
theorem decode_label_read_position (data : List Nat) (p : SFOParser) (i : Nat)
    (sec : PsfSec) (hok : NewSFOParser data = .ok p) (hsec : p.psfSec[i]? = some sec)
    (hlp : 0 ≤ p.psfHdr.labelPtr) (hoff : 0 ≤ sec.labelOff)
    (hsum : p.psfHdr.labelPtr + sec.labelOff < 32768) :
    ∃ pr, p.pairs[i]? = some pr ∧
      (readByteString data (p.psfHdr.labelPtr + sec.labelOff).toNat).map Prod.fst =
        some pr.label := by
  unfold NewSFOParser at hok
  split at hok
  · cases hok
  · split at hok
    · split at hok
      · cases hok
      · split at hok
        · cases hok
        · split at hok
          · cases hok
          · cases hok
          · rename_i prs hpairs
            cases hok
            dsimp only at hsec hlp hsum ⊢
            exact parsePairs_label data _ _ hlp _ _ _ hpairs i sec hsec hoff hsum
    · cases hok

/-- Witness for C4's amended statement on the one-section stream
`wstream4` (`label_table_offset` 36, `label_offset` 0, empty label). -/
theorem decode_label_read_position_witness :
    NewSFOParser wstream4 = .ok wP ∧
    wP.psfSec[0]? = some zeroSec ∧
    (0 : Int) ≤ wP.psfHdr.labelPtr ∧
    (0 : Int) ≤ zeroSec.labelOff ∧
    wP.psfHdr.labelPtr + zeroSec.labelOff < 32768 ∧
    (∃ pr, wP.pairs[0]? = some pr ∧
      (readByteString wstream4 (wP.psfHdr.labelPtr + zeroSec.labelOff).toNat).map Prod.fst =
        some pr.label) :=
  ⟨by decide, by decide, by decide, by decide, by decide,
   decode_label_read_position wstream4 wP 0 zeroSec (by decide) (by decide)
     (by decide) (by decide) (by decide)⟩

/-- Witness for C10: entry 0 of `exSet` is text-typed; the empty string
crashes. -/
theorem set_string_value_empty_crashes_witness :
    (0 : Int) ≤ 0 ∧
    exSet.pairs.get? (0 : Int).toNat =
      some { label := [65], type := 2, value := .str [66, 0],
             psfSec := { zeroSec with dataType := 2 } } ∧
    ((SetValueByIndex exSet 0 []).2 = .crash ↔ ([] : List Nat) = []) :=
  ⟨by decide, by decide,
   set_string_value_empty_crashes exSet 0
     { label := [65], type := 2, value := .str [66, 0], psfSec := { zeroSec with dataType := 2 } }
     [] (by decide) (by decide) (by decide)⟩

end SFO
